import Mathlib

/-!
Shallow embedding of the TiendaSinu back-office service (FastAPI + SQLAlchemy).

The relational database is modelled as lists of rows; floats (quantities,
prices) are modelled as rationals.  Each route handler becomes a pure
function from the request payload and the committed database state to
`Except HTTPError` of the new committed state: a raised `HTTPException`
(or an uncaught Python exception) means the surrounding transaction is
rolled back, so an `.error` result leaves the committed state equal to the
input state.  `first()` queries become `List.find?`; in-place mutation of
the first matching ORM row becomes an update of the first matching list
element.
-/

namespace TiendaSinu

/-- `schemas.MovementType` / `models.MovementType`. -/
inductive MovementType
  | INGRESO
  | EGRESO
deriving DecidableEq, Repr

/-- `models.Product` (the fields the routes under scrutiny read). -/
structure ProductRow where
  id : Nat
  sale_price : ℚ
deriving DecidableEq, Repr

/-- `models.Stock`. -/
structure StockRow where
  product_id : Nat
  current_quantity : ℚ
deriving DecidableEq, Repr

/-- `models.Movement`. -/
structure MovementRow where
  product_id : Nat
  user_id : Nat
  quantity : ℚ
  type : MovementType
  observation : Option String
deriving DecidableEq, Repr

/-- `models.Sale`.  `status = true` means pending/open. -/
structure SaleRow where
  id : Nat
  client_name : String
  client_phone : String
  client_address : String
  total_estimated : ℚ
  observations : Option String
  status : Bool
deriving DecidableEq, Repr

/-- `models.SaleItem`. -/
structure SaleItemRow where
  sale_id : Nat
  product_id : Nat
  presentation_id : Option Nat
  product_name : String
  presentation_description : Option String
  quantity : ℚ
  price_at_time : ℚ
deriving DecidableEq, Repr

/-- `models.User` (role stored as the plain string carried in the JWT). -/
structure UserRow where
  id : Nat
  username : String
  role : String
deriving DecidableEq, Repr

/-- The committed relational state. -/
structure DB where
  products : List ProductRow
  stocks : List StockRow
  movements : List MovementRow
  sales : List SaleRow
  sale_items : List SaleItemRow
  users : List UserRow
deriving DecidableEq, Repr

/-- `schemas.MovementCreate` (note: `quantity` is an unconstrained float). -/
structure MovementCreate where
  product_id : Nat
  quantity : ℚ
  type : MovementType
  observation : Option String
deriving DecidableEq, Repr

/-- `schemas.SaleItemSchema`. -/
structure SaleItemSchema where
  product_id : Nat
  presentation_id : Option Nat
  product_name : String
  presentation_description : Option String
  quantity : ℚ
  price_at_time : ℚ
deriving DecidableEq, Repr

/-- `schemas.SaleCreate`. -/
structure SaleCreate where
  client_name : String
  client_phone : String
  client_address : String
  total_estimated : ℚ
  observations : Option String
  items : List SaleItemSchema
deriving DecidableEq, Repr

/-- The dict returned by `auth.get_current_user`. -/
structure CurrentUser where
  username : String
  role : String
deriving DecidableEq, Repr

/-- A raised `HTTPException` (status code and detail string). -/
structure HTTPError where
  status_code : Nat
  detail : String
deriving DecidableEq, Repr

/-- `db.query(Stock).filter(Stock.product_id == pid).first()`. -/
def findStock (db : DB) (pid : Nat) : Option StockRow :=
  db.stocks.find? (fun s => s.product_id == pid)

/-- The current quantity stored for a product, if a Stock row exists. -/
def stockQty (db : DB) (pid : Nat) : Option ℚ :=
  (findStock db pid).map (fun s => s.current_quantity)

/-- In-place mutation of the first Stock row matching `pid`
    (SQLAlchemy mutates the object returned by `first()`). -/
def setStockQty : List StockRow → Nat → ℚ → List StockRow
  | [], _, _ => []
  | s :: rest, pid, q =>
    if s.product_id == pid then { s with current_quantity := q } :: rest
    else s :: setStockQty rest pid q

/-- In-place mutation of the first Sale row matching `pid`. -/
def updateSaleFirst (sales : List SaleRow) (pid : Nat) (f : SaleRow → SaleRow) : List SaleRow :=
  match sales with
  | [] => []
  | s :: rest => if s.id == pid then f s :: rest else s :: updateSaleFirst rest pid f

/-- In-place mutation of the quantity of the first SaleItem row matching
    `(sale_id, product_id)`. -/
def updateSaleItemQty : List SaleItemRow → Nat → Nat → ℚ → List SaleItemRow
  | [], _, _, _ => []
  | si :: rest, sid, pid, q =>
    if si.sale_id == sid && si.product_id == pid then { si with quantity := q } :: rest
    else si :: updateSaleItemQty rest sid pid q

/-- The total stored for a sale, if the Sale row exists. -/
def saleTotal (db : DB) (pid : Nat) : Option ℚ :=
  (db.sales.find? (fun s => s.id == pid)).map (fun s => s.total_estimated)

/-- The open/pending flag stored for a sale, if the Sale row exists. -/
def saleOpen (db : DB) (pid : Nat) : Option Bool :=
  (db.sales.find? (fun s => s.id == pid)).map (fun s => s.status)

/-- `POST /inventario/movimiento` — `registrar_movimiento` in
    `app/routes/inventario.py`.  On success returns the new state together
    with the created Movement row. -/
def registrar_movimiento (movimiento : MovementCreate) (current_user : CurrentUser)
    (db : DB) : Except HTTPError (DB × MovementRow) :=
  match findStock db movimiento.product_id with
  | none => .error ⟨404, "El producto no tiene registro de stock"⟩
  | some db_stock =>
    if movimiento.type == MovementType.INGRESO && current_user.role != "admin" then
      .error ⟨403, "Solo el administrador puede registrar ingresos de mercancía"⟩
    else
      let adjusted : Except HTTPError ℚ :=
        if movimiento.type == MovementType.EGRESO then
          if db_stock.current_quantity < movimiento.quantity then
            .error ⟨400, "Stock insuficiente. Disponible: " ++ toString db_stock.current_quantity⟩
          else
            .ok (db_stock.current_quantity - movimiento.quantity)
        else
          .ok (db_stock.current_quantity + movimiento.quantity)
      match adjusted with
      | .error e => .error e
      | .ok q =>
        match db.users.find? (fun u => u.username == current_user.username) with
        | none =>
          -- `user_record.id` on a missing user raises AttributeError → HTTP 500,
          -- and the transaction is never committed.
          .error ⟨500, "Internal Server Error"⟩
        | some user_record =>
          let nuevo_movimiento : MovementRow :=
            ⟨movimiento.product_id, user_record.id, movimiento.quantity,
              movimiento.type, movimiento.observation⟩
          .ok ({ db with
                  stocks := setStockQty db.stocks movimiento.product_id q,
                  movements := db.movements ++ [nuevo_movimiento] },
               nuevo_movimiento)

/-- The SaleItem row inserted for one input item by `crear_pedido_cliente`. -/
def crearSaleItem (sale_id : Nat) (item : SaleItemSchema) : SaleItemRow :=
  ⟨sale_id, item.product_id, item.presentation_id, item.product_name,
    item.presentation_description, item.quantity, item.price_at_time⟩

/-- `POST /ventas/pedido-nuevo` — `crear_pedido_cliente` in
    `app/routes/ventas.py`.  `nuevo_id` is the primary key allocated by the
    database at `db.flush()`. -/
def crear_pedido_cliente (pedido : SaleCreate) (nuevo_id : Nat) (db : DB) :
    Except HTTPError (DB × SaleRow) :=
  if pedido.client_name == "" || pedido.client_phone == "" then
    .error ⟨400, "Nombre y teléfono del cliente son requeridos"⟩
  else if pedido.items.length == 0 then
    .error ⟨400, "El pedido debe contener al menos un producto"⟩
  else
    let nuevo_pedido : SaleRow :=
      ⟨nuevo_id, pedido.client_name, pedido.client_phone, pedido.client_address,
        pedido.total_estimated, pedido.observations, true⟩
    .ok ({ db with
            sales := db.sales ++ [nuevo_pedido],
            sale_items := db.sale_items ++ pedido.items.map (crearSaleItem nuevo_id) },
         nuevo_pedido)

/-- The SaleItem row inserted for one input item by `actualizar_pedido`:
    `presentation_id` and `presentation_description` are not passed to the
    constructor, so they take their column default `NULL`. -/
def actualizarSaleItem (sale_id : Nat) (item : SaleItemSchema) : SaleItemRow :=
  ⟨sale_id, item.product_id, none, item.product_name, none,
    item.quantity, item.price_at_time⟩

/-- `PUT /ventas/actualizar/(pedido_id)` — `actualizar_pedido` in
    `app/routes/ventas.py`. -/
def actualizar_pedido (pedido_id : Nat) (pedido_actualizado : SaleCreate) (db : DB) :
    Except HTTPError DB :=
  match db.sales.find? (fun s => s.id == pedido_id) with
  | none => .error ⟨404, "Pedido no encontrado"⟩
  | some _ =>
    let total_calculado :=
      (pedido_actualizado.items.map (fun item => item.quantity * item.price_at_time)).sum
    let sales := updateSaleFirst db.sales pedido_id (fun p =>
      { p with
          client_name := pedido_actualizado.client_name,
          client_phone := pedido_actualizado.client_phone,
          client_address := pedido_actualizado.client_address,
          total_estimated := total_calculado,
          observations := pedido_actualizado.observations })
    let restantes := db.sale_items.filter (fun si => si.sale_id != pedido_id)
    let nuevos := pedido_actualizado.items.map (actualizarSaleItem pedido_id)
    .ok { db with sales := sales, sale_items := restantes ++ nuevos }

/-- One line of the `nuevo_total` accumulation in `despachar_pedido`:
    the sale item's frozen price if one matches, else the product's current
    catalog price, else nothing is accumulated. -/
def resolvedLineTotal (db : DB) (pedido_id : Nat) (item : MovementCreate) : ℚ :=
  match db.sale_items.find? (fun si => si.sale_id == pedido_id && si.product_id == item.product_id) with
  | some sale_item => sale_item.price_at_time * item.quantity
  | none =>
    match db.products.find? (fun p => p.id == item.product_id) with
    | some producto => producto.sale_price * item.quantity
    | none => 0

/-- The `nuevo_total` computed by `despachar_pedido` before touching stock. -/
def nuevoTotal (db : DB) (pedido_id : Nat) (items : List MovementCreate) : ℚ :=
  (items.map (resolvedLineTotal db pedido_id)).sum

/-- The insufficient-stock detail string of the dispatch path. -/
def dispatchStockMsg (pid : Nat) : String :=
  "No hay suficiente stock para el producto ID " ++ toString pid

/-- The per-line loop of `despachar_pedido` (lines 202-231 of
    `app/routes/ventas.py`), threading the session state.  `user_record` is
    the result of the user lookup performed before the loop; dereferencing
    it when building the first Movement row raises on `none` (HTTP 500). -/
def despacharLoop (pedido_id : Nat) (user_record : Option UserRow) :
    List MovementCreate → DB → Except HTTPError DB
  | [], db => .ok db
  | item :: rest, db =>
    match findStock db item.product_id with
    | none => .error ⟨400, dispatchStockMsg item.product_id⟩
    | some db_stock =>
      if db_stock.current_quantity < item.quantity then
        .error ⟨400, dispatchStockMsg item.product_id⟩
      else
        match user_record with
        | none => .error ⟨500, "Internal Server Error"⟩
        | some u =>
          let movimiento : MovementRow :=
            ⟨item.product_id, u.id, item.quantity, MovementType.EGRESO,
              some ("Despacho pedido #" ++ toString pedido_id)⟩
          let db1 : DB :=
            { db with
                stocks := setStockQty db.stocks item.product_id
                  (db_stock.current_quantity - item.quantity),
                movements := db.movements ++ [movimiento],
                sale_items := updateSaleItemQty db.sale_items pedido_id item.product_id
                  item.quantity }
          despacharLoop pedido_id user_record rest db1

/-- `POST /ventas/despachar/(pedido_id)` — `despachar_pedido` in
    `app/routes/ventas.py`.  On success returns the new state and the
    `total_actualizado` reported to the caller. -/
def despachar_pedido (pedido_id : Nat) (productos_a_descontar : List MovementCreate)
    (current_user : CurrentUser) (db : DB) : Except HTTPError (DB × ℚ) :=
  match db.sales.find? (fun s => s.id == pedido_id) with
  | none => .error ⟨404, "Pedido no encontrado"⟩
  | some _ =>
    let nuevo_total := nuevoTotal db pedido_id productos_a_descontar
    let user_record := db.users.find? (fun u => u.username == current_user.username)
    match despacharLoop pedido_id user_record productos_a_descontar db with
    | .error e => .error e
    | .ok db1 =>
      let sales := updateSaleFirst db1.sales pedido_id (fun p =>
        { p with total_estimated := nuevo_total, status := false })
      .ok ({ db1 with sales := sales }, nuevo_total)

/-- Committed state after `registrar_movimiento`: the route commits only on
    success; a raised exception leaves the stored state untouched. -/
def movCommitted (movimiento : MovementCreate) (current_user : CurrentUser) (db : DB) : DB :=
  match registrar_movimiento movimiento current_user db with
  | .ok (db1, _) => db1
  | .error _ => db

/-- Committed state after `crear_pedido_cliente`. -/
def crearCommitted (pedido : SaleCreate) (nuevo_id : Nat) (db : DB) : DB :=
  match crear_pedido_cliente pedido nuevo_id db with
  | .ok (db1, _) => db1
  | .error _ => db

/-- Committed state after `despachar_pedido`: the route calls
    `db.rollback()` before raising, so a failing dispatch leaves the stored
    state untouched. -/
def dispatchCommitted (pedido_id : Nat) (items : List MovementCreate)
    (current_user : CurrentUser) (db : DB) : DB :=
  match despachar_pedido pedido_id items current_user db with
  | .ok (db1, _) => db1
  | .error _ => db

/-- A dispatch line whose quantity exceeds the stock currently recorded for
    its product (or whose product has no Stock row at all). -/
def lineExceedsStock (db : DB) (l : MovementCreate) : Bool :=
  match stockQty db l.product_id with
  | none => true
  | some q => decide (q < l.quantity)

/-- The price resolution described by the specification for one dispatch
    line: the frozen `price_at_time` of the matching SaleItem when one
    exists, otherwise the product's current catalog `sale_price`. -/
def claimResolvedPrice (db : DB) (pedido_id : Nat) (pid : Nat) : Option ℚ :=
  match db.sale_items.find? (fun si => si.sale_id == pedido_id && si.product_id == pid) with
  | some sale_item => some sale_item.price_at_time
  | none => (db.products.find? (fun p => p.id == pid)).map (fun p => p.sale_price)

/-- The state with the open flag of the first Sale row matching `pid`
    overwritten by `b`. -/
def setSaleStatus (db : DB) (pid : Nat) (b : Bool) : DB :=
  { db with sales := updateSaleFirst db.sales pid (fun s => { s with status := b }) }

/-- Committed state after `actualizar_pedido`. -/
def actCommitted (pedido_id : Nat) (pedido_actualizado : SaleCreate) (db : DB) : DB :=
  match actualizar_pedido pedido_id pedido_actualizado db with
  | .ok db1 => db1
  | .error _ => db

/-- Whether a route call succeeded (HTTP 2xx) rather than raising. -/
def exceptOk {α : Type} : Except HTTPError α → Bool
  | .ok _ => true
  | .error _ => false

/-- The error raised by a route call, when it failed. -/
def exceptErr {α : Type} : Except HTTPError α → Option HTTPError
  | .ok _ => none
  | .error e => some e

lemma find?_setStockQty_self (l : List StockRow) (pid : Nat) (q : ℚ) :
    (setStockQty l pid q).find? (fun s => s.product_id == pid)
      = (l.find? (fun s => s.product_id == pid)).map
          (fun s => { s with current_quantity := q }) := by
  induction l with
  | nil => rfl
  | cons s rest ih =>
    cases h : (s.product_id == pid) with
    | true => simp [setStockQty, h, List.find?]
    | false => simp [setStockQty, h, List.find?, ih]

lemma find?_setStockQty_ne (l : List StockRow) (pid : Nat) (q : ℚ) (p : Nat)
    (hne : p ≠ pid) :
    (setStockQty l pid q).find? (fun s => s.product_id == p)
      = l.find? (fun s => s.product_id == p) := by
  induction l with
  | nil => rfl
  | cons s rest ih =>
    cases h : (s.product_id == pid) with
    | true =>
      have hp : (s.product_id == p) = false := by
        have hs : s.product_id = pid := by simpa using h
        simp [hs]
        omega
      simp [setStockQty, h, List.find?, hp]
    | false =>
      cases hp : (s.product_id == p) with
      | true => simp [setStockQty, h, List.find?, hp]
      | false => simp [setStockQty, h, List.find?, hp, ih]

lemma find?_updateSaleFirst (sales : List SaleRow) (pid : Nat) (f : SaleRow → SaleRow)
    (hf : ∀ s, (f s).id = s.id) :
    (updateSaleFirst sales pid f).find? (fun s => s.id == pid)
      = (sales.find? (fun s => s.id == pid)).map f := by
  induction sales with
  | nil => rfl
  | cons s rest ih =>
    cases h : (s.id == pid) with
    | true =>
      have h2 : ((f s).id == pid) = true := by rw [hf]; exact h
      simp [updateSaleFirst, h, List.find?, h2]
    | false => simp [updateSaleFirst, h, List.find?, ih]

lemma updateSaleFirst_updateSaleFirst (sales : List SaleRow) (pid : Nat)
    (f g : SaleRow → SaleRow) (hf : ∀ s, (f s).id = s.id)
    (hfg : ∀ s, g (f s) = g s) :
    updateSaleFirst (updateSaleFirst sales pid f) pid g = updateSaleFirst sales pid g := by
  induction sales with
  | nil => rfl
  | cons s rest ih =>
    cases h : (s.id == pid) with
    | true =>
      have h2 : ((f s).id == pid) = true := by rw [hf]; exact h
      simp [updateSaleFirst, h, h2, hfg]
    | false => simp [updateSaleFirst, h, ih]

lemma despacharLoop_setSales (pid : Nat) (urec : Option UserRow)
    (items : List MovementCreate) :
    ∀ (db : DB) (S : List SaleRow),
      despacharLoop pid urec items { db with sales := S }
        = Except.map (fun d => { d with sales := S }) (despacharLoop pid urec items db) := by
  induction items with
  | nil => intro db S; rfl
  | cons item rest ih =>
    intro db S
    have hfs : findStock { db with sales := S } item.product_id
        = findStock db item.product_id := rfl
    cases hf : findStock db item.product_id with
    | none => simp [despacharLoop, hfs, hf, Except.map]
    | some s =>
      by_cases hq : s.current_quantity < item.quantity
      · simp [despacharLoop, hfs, hf, hq, Except.map]
      · cases urec with
        | none => simp [despacharLoop, hfs, hf, hq, Except.map]
        | some u =>
          simp only [despacharLoop, hfs, hf, hq, if_false]
          exact ih { db with
            stocks := setStockQty db.stocks item.product_id
              (s.current_quantity - item.quantity),
            movements := db.movements ++
              [⟨item.product_id, u.id, item.quantity, MovementType.EGRESO,
                some ("Despacho pedido #" ++ toString pid)⟩],
            sale_items := updateSaleItemQty db.sale_items pid item.product_id
              item.quantity } S

lemma despacharLoop_ok_sales (pid : Nat) (urec : Option UserRow)
    (items : List MovementCreate) :
    ∀ (db db1 : DB), despacharLoop pid urec items db = .ok db1 → db1.sales = db.sales := by
  induction items with
  | nil =>
    intro db db1 h
    simp [despacharLoop] at h
    rw [← h]
  | cons item rest ih =>
    intro db db1 h
    cases hf : findStock db item.product_id with
    | none => simp [despacharLoop, hf] at h
    | some s =>
      by_cases hq : s.current_quantity < item.quantity
      · simp [despacharLoop, hf, hq] at h
      · cases urec with
        | none => simp [despacharLoop, hf, hq] at h
        | some u =>
          simp only [despacharLoop, hf, hq, if_false] at h
          have h2 := ih _ db1 h
          exact h2

lemma despacharLoop_cons_eq (pid : Nat) (u : UserRow) (item : MovementCreate)
    (rest : List MovementCreate) (db : DB) (s : StockRow)
    (hf : findStock db item.product_id = some s)
    (hq : ¬ s.current_quantity < item.quantity) :
    despacharLoop pid (some u) (item :: rest) db
      = despacharLoop pid (some u) rest
          { db with
              stocks := setStockQty db.stocks item.product_id
                (s.current_quantity - item.quantity),
              movements := db.movements ++
                [⟨item.product_id, u.id, item.quantity, MovementType.EGRESO,
                  some ("Despacho pedido #" ++ toString pid)⟩],
              sale_items := updateSaleItemQty db.sale_items pid item.product_id
                item.quantity } := by
  simp [despacharLoop, hf, hq]

lemma lineExceedsStock_after (db db1 : DB) (l : MovementCreate) (pid0 : Nat)
    (q : ℚ) (s : StockRow)
    (hst : db1.stocks = setStockQty db.stocks pid0 q)
    (hf0 : db.stocks.find? (fun x => x.product_id == pid0) = some s)
    (hle : q ≤ s.current_quantity)
    (hl : lineExceedsStock db l = true) :
    lineExceedsStock db1 l = true := by
  unfold lineExceedsStock stockQty findStock at hl ⊢
  rw [hst]
  by_cases hp : l.product_id = pid0
  · rw [hp] at hl ⊢
    rw [find?_setStockQty_self, hf0]
    rw [hf0] at hl
    simp at hl ⊢
    exact lt_of_le_of_lt hle hl
  · rw [find?_setStockQty_ne db.stocks pid0 q l.product_id hp]
    exact hl

lemma despacharLoop_fails (pid : Nat) (urec : Option UserRow) :
    ∀ (items : List MovementCreate) (db : DB),
      (∀ l ∈ items, 0 ≤ l.quantity) →
      (∃ l ∈ items, lineExceedsStock db l = true) →
      ∃ e, despacharLoop pid urec items db = .error e := by
  intro items
  induction items with
  | nil =>
    intro db _ hex
    obtain ⟨l, hl, _⟩ := hex
    exact absurd hl (List.not_mem_nil l)
  | cons item rest ih =>
    intro db h0 hex
    cases hf : findStock db item.product_id with
    | none =>
      exact ⟨⟨400, dispatchStockMsg item.product_id⟩, by simp [despacharLoop, hf]⟩
    | some s =>
      by_cases hq : s.current_quantity < item.quantity
      · exact ⟨⟨400, dispatchStockMsg item.product_id⟩, by simp [despacharLoop, hf, hq]⟩
      · cases urec with
        | none =>
          exact ⟨⟨500, "Internal Server Error"⟩, by simp [despacharLoop, hf, hq]⟩
        | some u =>
          obtain ⟨l, hl, hlex⟩ := hex
          have hlrest : l ∈ rest := by
            rcases List.mem_cons.mp hl with h1 | h1
            · exfalso
              subst h1
              unfold lineExceedsStock stockQty at hlex
              rw [show findStock db l.product_id = some s from hf] at hlex
              simp at hlex
              exact hq hlex
            · exact h1
          have hle : s.current_quantity - item.quantity ≤ s.current_quantity :=
            sub_le_self _ (h0 item (List.mem_cons_self _ _))
          have hmono := lineExceedsStock_after db
            { db with
                stocks := setStockQty db.stocks item.product_id
                  (s.current_quantity - item.quantity),
                movements := db.movements ++
                  [⟨item.product_id, u.id, item.quantity, MovementType.EGRESO,
                    some ("Despacho pedido #" ++ toString pid)⟩],
                sale_items := updateSaleItemQty db.sale_items pid item.product_id
                  item.quantity }
            l item.product_id (s.current_quantity - item.quantity) s rfl hf hle hlex
          have hrest0 : ∀ x ∈ rest, 0 ≤ x.quantity :=
            fun x hx => h0 x (List.mem_cons_of_mem _ hx)
          obtain ⟨e, he⟩ := ih _ hrest0 ⟨l, hlrest, hmono⟩
          refine ⟨e, ?_⟩
          rw [despacharLoop_cons_eq pid u item rest db s hf hq]
          exact he

lemma despacharLoop_error_detail (pid : Nat) (urec : Option UserRow) :
    ∀ (items : List MovementCreate) (db : DB) (e : HTTPError),
      despacharLoop pid urec items db = .error e → e.status_code = 400 →
      ∃ l ∈ items, e = ⟨400, dispatchStockMsg l.product_id⟩ := by
  intro items
  induction items with
  | nil => intro db e h _; simp [despacharLoop] at h
  | cons item rest ih =>
    intro db e h h400
    cases hf : findStock db item.product_id with
    | none =>
      simp [despacharLoop, hf] at h
      exact ⟨item, List.mem_cons_self _ _, h.symm⟩
    | some s =>
      by_cases hq : s.current_quantity < item.quantity
      · simp [despacharLoop, hf, hq] at h
        exact ⟨item, List.mem_cons_self _ _, h.symm⟩
      · cases urec with
        | none =>
          simp [despacharLoop, hf, hq] at h
          rw [← h] at h400
          simp at h400
        | some u =>
          rw [despacharLoop_cons_eq pid u item rest db s hf hq] at h
          obtain ⟨l, hl, he⟩ := ih _ e h h400
          exact ⟨l, List.mem_cons_of_mem _ hl, he⟩

/-! Concrete fixtures used by the counterexamples and witnesses. -/

/-- An admin caller (present in the users table of the fixtures). -/
def exAdmin : CurrentUser := ⟨"ana", "admin"⟩

/-- A vendedor caller (present in the users table of the fixtures). -/
def exVendedor : CurrentUser := ⟨"bob", "vendedor"⟩

/-- Fixture: one product (catalog price 10) with stock 5, one open order
    (id 1) with one sale item (product 1, quantity 2, frozen price 3). -/
def exDB : DB :=
  ⟨[⟨1, 10⟩], [⟨1, 5⟩], [],
    [⟨1, "Cliente", "3001", "Calle 1", 6, none, true⟩],
    [⟨1, 1, none, "Huevos", none, 2, 3⟩],
    [⟨7, "ana", "admin"⟩, ⟨8, "bob", "vendedor"⟩]⟩

/-- Same fixture with stock 2 instead of 5. -/
def exDB2 : DB := { exDB with stocks := [⟨1, 2⟩] }

/-- Same fixture but the order is already dispatched (`status = false`). -/
def exDBClosed : DB :=
  { exDB with sales := [⟨1, "Cliente", "3001", "Calle 1", 6, none, false⟩] }

/-- Same fixture with a second product, both with stock 5. -/
def exDB3 : DB := { exDB with products := [⟨1, 10⟩, ⟨2, 20⟩], stocks := [⟨1, 5⟩, ⟨2, 5⟩] }

/-- Claim C1: the spec demands `Stock.current_quantity >= 0` after every
recordMovement/dispatchOrder call for any float quantity the public interface
accepts, and declares Movement quantities positive; the code never validates
the sign, so an admin INGRESO of quantity -10 on stock 5 succeeds and leaves
`current_quantity = -5 < 0`.  This theorem evaluates the code at that failing
input. -/
theorem c1_negative_ingreso_breaks_nonneg :
    exceptOk (registrar_movimiento ⟨1, -10, MovementType.INGRESO, none⟩ exAdmin exDB) = true ∧
    stockQty (movCommitted ⟨1, -10, MovementType.INGRESO, none⟩ exAdmin exDB) 1 = some (-5) ∧
    ((-5 : ℚ) < 0) := by
  refine ⟨by with_unfolding_all decide, by with_unfolding_all decide, by norm_num⟩

/-- The dispatch line list of the C2 counterexample: a negative quantity
    followed by a quantity exceeding the available stock of 5. -/
def c2Lines : List MovementCreate :=
  [⟨1, -5, MovementType.EGRESO, none⟩, ⟨1, 7, MovementType.EGRESO, none⟩]

/-- Claim C2 counterexample: with stock 5, the line list [(P1, -5), (P1, 7)]
contains a line (quantity 7) exceeding the available stock, yet the dispatch
succeeds and changes the stock (5 → 3): the negative first line inflates the
running quantity before the second line's check runs.  The claim as stated
(any such dispatch fails and leaves stock unchanged) is therefore false. -/
theorem c2_counterexample :
    stockQty exDB 1 = some 5 ∧
    (∃ l ∈ c2Lines, lineExceedsStock exDB l = true) ∧
    exceptOk (despachar_pedido 1 c2Lines exAdmin exDB) = true ∧
    stockQty (dispatchCommitted 1 c2Lines exAdmin exDB) 1 = some 3 := by
  refine ⟨by with_unfolding_all decide,
    ⟨⟨1, 7, MovementType.EGRESO, none⟩, ?_, by with_unfolding_all decide⟩,
    by with_unfolding_all decide, by with_unfolding_all decide⟩
  simp [c2Lines]

/-- Claim C2 (amended): if every line quantity is nonnegative and some line's
quantity exceeds that product's available stock (or the product has no Stock
row), the whole dispatch fails and the committed state — every stock quantity,
the order's total and open flag, and the movement log — is exactly the state
before the call. -/
theorem c2_dispatch_all_or_nothing (pid : Nat) (items : List MovementCreate)
    (u : CurrentUser) (db : DB)
    (h0 : ∀ l ∈ items, 0 ≤ l.quantity)
    (hex : ∃ l ∈ items, lineExceedsStock db l = true) :
    exceptOk (despachar_pedido pid items u db) = false ∧
    dispatchCommitted pid items u db = db := by
  cases hsale : db.sales.find? (fun s => s.id == pid) with
  | none =>
    constructor
    · simp [despachar_pedido, hsale, exceptOk]
    · simp [dispatchCommitted, despachar_pedido, hsale]
  | some s0 =>
    obtain ⟨e, he⟩ := despacharLoop_fails pid
      (db.users.find? (fun x => x.username == u.username)) items db h0 hex
    constructor
    · simp [despachar_pedido, hsale, he, exceptOk]
    · simp [dispatchCommitted, despachar_pedido, hsale, he]

/-- The dispatch line list of the C2 witness: a single line demanding 7
    units of a product with stock 5. -/
def c2wLines : List MovementCreate := [⟨1, 7, MovementType.EGRESO, none⟩]

/-- Witness for the amended C2 at a concrete input. -/
theorem c2_dispatch_all_or_nothing_witness :
    exceptOk (despachar_pedido 1 c2wLines exAdmin exDB) = false ∧
    dispatchCommitted 1 c2wLines exAdmin exDB = exDB :=
  c2_dispatch_all_or_nothing 1 c2wLines exAdmin exDB (by with_unfolding_all decide)
    ⟨⟨1, 7, MovementType.EGRESO, none⟩, by simp [c2wLines], by with_unfolding_all decide⟩

lemma saleTotal_eq (db : DB) (pid : Nat) :
    saleTotal db pid
      = (db.sales.find? (fun s => s.id == pid)).map (fun s => s.total_estimated) := rfl

lemma saleOpen_eq (db : DB) (pid : Nat) :
    saleOpen db pid
      = (db.sales.find? (fun s => s.id == pid)).map (fun s => s.status) := rfl

lemma stockQty_eq (db : DB) (pid : Nat) :
    stockQty db pid
      = (db.stocks.find? (fun s => s.product_id == pid)).map
          (fun s => s.current_quantity) := rfl

/-- Claim C3: `actualizar_pedido` stores as total exactly the sum of
quantity × price_at_time over the incoming item list, and the caller-supplied
`total_estimated` field of the payload has no effect on the result of the
call. -/
theorem c3_update_total_recomputed (pid : Nat) (upd : SaleCreate) (db db1 : DB)
    (h : actualizar_pedido pid upd db = .ok db1) :
    saleTotal db1 pid
        = some ((upd.items.map (fun i => i.quantity * i.price_at_time)).sum) ∧
    ∀ t : ℚ, actualizar_pedido pid { upd with total_estimated := t } db = .ok db1 := by
  have heq : ∀ t : ℚ, actualizar_pedido pid { upd with total_estimated := t } db
      = actualizar_pedido pid upd db := fun t => rfl
  refine ⟨?_, fun t => (heq t).trans h⟩
  cases hsale : db.sales.find? (fun s => s.id == pid) with
  | none => simp [actualizar_pedido, hsale] at h
  | some s0 =>
    simp only [actualizar_pedido, hsale, Except.ok.injEq] at h
    subst h
    rw [saleTotal_eq]
    dsimp only
    rw [find?_updateSaleFirst db.sales pid (fun p =>
      { p with
          client_name := upd.client_name, client_phone := upd.client_phone,
          client_address := upd.client_address,
          total_estimated := (upd.items.map (fun item => item.quantity * item.price_at_time)).sum,
          observations := upd.observations }) (fun s => rfl), hsale]
    rfl

/-- The update payload used by the C3 and C10 witnesses: one item of
    quantity 4 at price 7 (recomputed total 28), caller total 1234. -/
def c3wUpd : SaleCreate :=
  ⟨"n2", "p2", "a2", 1234, none, [⟨1, some 2, "X", some "d", 4, 7⟩]⟩

/-- Witness for C3 at a concrete input (also shows the caller-supplied
    total 777 is ignored). -/
theorem c3_update_total_recomputed_witness :
    saleTotal (actCommitted 1 c3wUpd exDB) 1
        = some ((c3wUpd.items.map (fun i => i.quantity * i.price_at_time)).sum) ∧
    actualizar_pedido 1 { c3wUpd with total_estimated := 777 } exDB
      = .ok (actCommitted 1 c3wUpd exDB) := by
  have h : actualizar_pedido 1 c3wUpd exDB = .ok (actCommitted 1 c3wUpd exDB) := by
    with_unfolding_all rfl
  exact ⟨(c3_update_total_recomputed 1 c3wUpd exDB _ h).1,
    (c3_update_total_recomputed 1 c3wUpd exDB _ h).2 777⟩

/-- Claim C5 counterexample: order 1 of `exDBClosed` is already dispatched
(`open = false`, stored total 6), yet `actualizar_pedido` succeeds on it and
rewrites its total to 28 — the claim that a dispatched order's items, prices
and total are fixed history is false. -/
theorem c5_counterexample :
    saleOpen exDBClosed 1 = some false ∧
    saleTotal exDBClosed 1 = some 6 ∧
    exceptOk (actualizar_pedido 1 ⟨"n2", "p2", "a2", 0, none,
      [⟨1, none, "X", none, 4, 7⟩]⟩ exDBClosed) = true ∧
    saleTotal (actCommitted 1 ⟨"n2", "p2", "a2", 0, none,
      [⟨1, none, "X", none, 4, 7⟩]⟩ exDBClosed) 1 = some 28 := by
  with_unfolding_all decide

/-- Claim C5 (amended): `actualizar_pedido` never consults the open flag: it
succeeds on any existing order, dispatched or not, rewriting the item set and
the total (while leaving the open flag as it was), and rejects only a missing
order id. -/
theorem c5_update_ignores_open_flag (pid : Nat) (upd : SaleCreate) (db : DB)
    (s : SaleRow)
    (hfind : db.sales.find? (fun x => x.id == pid) = some s)
    (hclosed : s.status = false) :
    exceptOk (actualizar_pedido pid upd db) = true ∧
    saleTotal (actCommitted pid upd db) pid
        = some ((upd.items.map (fun i => i.quantity * i.price_at_time)).sum) ∧
    saleOpen (actCommitted pid upd db) pid = some false := by
  refine ⟨?_, ?_, ?_⟩
  · simp [exceptOk, actualizar_pedido, hfind]
  · simp only [actCommitted, actualizar_pedido, hfind]
    rw [saleTotal_eq]
    dsimp only
    rw [find?_updateSaleFirst db.sales pid (fun p =>
      { p with
          client_name := upd.client_name, client_phone := upd.client_phone,
          client_address := upd.client_address,
          total_estimated := (upd.items.map (fun item => item.quantity * item.price_at_time)).sum,
          observations := upd.observations }) (fun x => rfl), hfind]
    rfl
  · simp only [actCommitted, actualizar_pedido, hfind]
    rw [saleOpen_eq]
    dsimp only
    rw [find?_updateSaleFirst db.sales pid (fun p =>
      { p with
          client_name := upd.client_name, client_phone := upd.client_phone,
          client_address := upd.client_address,
          total_estimated := (upd.items.map (fun item => item.quantity * item.price_at_time)).sum,
          observations := upd.observations }) (fun x => rfl), hfind]
    simp [hclosed]

/-- Witness for the amended C5 at a concrete input. -/
theorem c5_update_ignores_open_flag_witness :
    exceptOk (actualizar_pedido 1 c3wUpd exDBClosed) = true ∧
    saleTotal (actCommitted 1 c3wUpd exDBClosed) 1
        = some ((c3wUpd.items.map (fun i => i.quantity * i.price_at_time)).sum) ∧
    saleOpen (actCommitted 1 c3wUpd exDBClosed) 1 = some false :=
  c5_update_ignores_open_flag 1 c3wUpd exDBClosed
    ⟨1, "Cliente", "3001", "Calle 1", 6, none, false⟩
    (by with_unfolding_all decide) rfl

/-- Claim C10: after a successful `actualizar_pedido`, every SaleItem row
stored for that order has `presentation_id = null` and
`presentation_description = null`, whatever presentation values the incoming
items carried — the rewrite drops the snapshot fields that
`crear_pedido_cliente` preserves. -/
theorem c10_update_drops_presentation (pid : Nat) (upd : SaleCreate) (db db1 : DB)
    (h : actualizar_pedido pid upd db = .ok db1) :
    ∀ si ∈ db1.sale_items, si.sale_id = pid →
      si.presentation_id = none ∧ si.presentation_description = none := by
  cases hsale : db.sales.find? (fun s => s.id == pid) with
  | none => simp [actualizar_pedido, hsale] at h
  | some s0 =>
    simp only [actualizar_pedido, hsale, Except.ok.injEq] at h
    subst h
    intro si hmem hsid
    dsimp only at hmem
    rcases List.mem_append.mp hmem with hx | hx
    · have hne := (List.mem_filter.mp hx).2
      simp at hne
      exact absurd hsid hne
    · obtain ⟨item, hitem, rfl⟩ := List.mem_map.mp hx
      exact ⟨rfl, rfl⟩

/-- Witness for C10: the item stored by a concrete update (which supplied
    `presentation_id = some 2` and a description) has both snapshot fields
    `none`. -/
theorem c10_update_drops_presentation_witness :
    (⟨1, 1, none, "X", none, 4, 7⟩ : SaleItemRow).presentation_id = none ∧
    (⟨1, 1, none, "X", none, 4, 7⟩ : SaleItemRow).presentation_description = none := by
  have h : actualizar_pedido 1 c3wUpd exDB = .ok (actCommitted 1 c3wUpd exDB) := by
    with_unfolding_all rfl
  refine c10_update_drops_presentation 1 c3wUpd exDB (actCommitted 1 c3wUpd exDB) h
    ⟨1, 1, none, "X", none, 4, 7⟩ ?_ rfl
  with_unfolding_all decide

lemma nuevoTotal_sales_irrel (db : DB) (S : List SaleRow) (pid : Nat)
    (items : List MovementCreate) :
    nuevoTotal { db with sales := S } pid items = nuevoTotal db pid items := rfl

/-- Claim C4 counterexample: order 1 of `exDBClosed` is already dispatched
(`open = false`), yet `despachar_pedido` succeeds on it again, decrementing
stock 5 → 2, appending a Movement row and overwriting the total — the claim
that a dispatched Sale can never be affected by a further dispatch is false
(the handler never checks the flag). -/
theorem c4_counterexample :
    saleOpen exDBClosed 1 = some false ∧
    exceptOk (despachar_pedido 1 [⟨1, 3, MovementType.EGRESO, none⟩] exAdmin exDBClosed)
      = true ∧
    stockQty (dispatchCommitted 1 [⟨1, 3, MovementType.EGRESO, none⟩] exAdmin exDBClosed) 1
      = some 2 ∧
    (dispatchCommitted 1 [⟨1, 3, MovementType.EGRESO, none⟩] exAdmin exDBClosed).movements.length
      = exDBClosed.movements.length + 1 ∧
    saleTotal (dispatchCommitted 1 [⟨1, 3, MovementType.EGRESO, none⟩] exAdmin exDBClosed) 1
      = some 9 ∧
    saleTotal exDBClosed 1 = some 6 := by
  with_unfolding_all decide

/-- Claim C4 (amended): a Sale is created with `open = true` and every
successful dispatch stores `open = false`; but the dispatch handler never
consults the flag — its outcome is identical whatever the stored open flag
is, so a second dispatch of a closed Sale decrements stock, records
movements and overwrites the total exactly as a first dispatch would. -/
theorem c4_dispatch_ignores_open_flag (ped : SaleCreate) (nid : Nat) (db0 dbc : DB)
    (sale : SaleRow) (pid : Nat) (items : List MovementCreate) (u : CurrentUser)
    (db db1 : DB) (t : ℚ) (b : Bool)
    (hc : crear_pedido_cliente ped nid db0 = .ok (dbc, sale))
    (hd : despachar_pedido pid items u db = .ok (db1, t)) :
    sale.status = true ∧ saleOpen db1 pid = some false ∧
    despachar_pedido pid items u (setSaleStatus db pid b)
      = despachar_pedido pid items u db := by
  refine ⟨?_, ?_, ?_⟩
  · unfold crear_pedido_cliente at hc
    split at hc
    · exact absurd hc (by simp)
    · split at hc
      · exact absurd hc (by simp)
      · simp only [Except.ok.injEq, Prod.mk.injEq] at hc
        rw [← hc.2]
  · cases hsale : db.sales.find? (fun s => s.id == pid) with
    | none => simp [despachar_pedido, hsale] at hd
    | some s0 =>
      simp only [despachar_pedido, hsale] at hd
      cases hloop : despacharLoop pid
          (db.users.find? (fun x => x.username == u.username)) items db with
      | error e => rw [hloop] at hd; simp at hd
      | ok dbL =>
        rw [hloop] at hd
        simp only [Except.ok.injEq, Prod.mk.injEq] at hd
        rw [← hd.1]
        have hsales := despacharLoop_ok_sales pid
          (db.users.find? (fun x => x.username == u.username)) items db dbL hloop
        rw [saleOpen_eq]
        dsimp only
        rw [find?_updateSaleFirst dbL.sales pid (fun p =>
          { p with total_estimated := nuevoTotal db pid items, status := false })
          (fun s => rfl), hsales, hsale]
        rfl
  · unfold despachar_pedido setSaleStatus
    dsimp only
    rw [find?_updateSaleFirst db.sales pid (fun s => { s with status := b })
      (fun s => rfl)]
    cases hsale : db.sales.find? (fun s => s.id == pid) with
    | none => rfl
    | some s0 =>
      dsimp only [Option.map]
      simp only [nuevoTotal_sales_irrel]
      rw [despacharLoop_setSales pid (db.users.find? (fun x => x.username == u.username))
        items db (updateSaleFirst db.sales pid (fun s => { s with status := b }))]
      cases hloop : despacharLoop pid
          (db.users.find? (fun x => x.username == u.username)) items db with
      | error e => rfl
      | ok dbL =>
        have hsales := despacharLoop_ok_sales pid
          (db.users.find? (fun x => x.username == u.username)) items db dbL hloop
        dsimp only [Except.map]
        rw [updateSaleFirst_updateSaleFirst db.sales pid (fun s => { s with status := b })
          (fun p => { p with total_estimated := nuevoTotal db pid items, status := false })
          (fun s => rfl) (fun s => rfl), hsales]

/-- Witness for the amended C4 at a concrete input. -/
theorem c4_dispatch_ignores_open_flag_witness :
    (⟨5, "n", "p", "a", 99, none, true⟩ : SaleRow).status = true ∧
    saleOpen (dispatchCommitted 1 [⟨1, 3, MovementType.EGRESO, none⟩] exAdmin exDB) 1
      = some false ∧
    despachar_pedido 1 [⟨1, 3, MovementType.EGRESO, none⟩] exAdmin
        (setSaleStatus exDB 1 false)
      = despachar_pedido 1 [⟨1, 3, MovementType.EGRESO, none⟩] exAdmin exDB :=
  c4_dispatch_ignores_open_flag
    ⟨"n", "p", "a", 99, none, [⟨1, none, "X", none, 2, 10⟩]⟩ 5 exDB
    (crearCommitted ⟨"n", "p", "a", 99, none, [⟨1, none, "X", none, 2, 10⟩]⟩ 5 exDB)
    ⟨5, "n", "p", "a", 99, none, true⟩ 1 [⟨1, 3, MovementType.EGRESO, none⟩] exAdmin exDB
    (dispatchCommitted 1 [⟨1, 3, MovementType.EGRESO, none⟩] exAdmin exDB) 9 false
    (by with_unfolding_all rfl) (by with_unfolding_all rfl)

lemma resolvedLineTotal_eq_claim (db : DB) (pid : Nat) (l : MovementCreate)
    (h : (claimResolvedPrice db pid l.product_id).isSome = true) :
    resolvedLineTotal db pid l
      = (claimResolvedPrice db pid l.product_id).getD 0 * l.quantity := by
  unfold claimResolvedPrice at h
  unfold resolvedLineTotal claimResolvedPrice
  cases hsi : db.sale_items.find?
      (fun si => si.sale_id == pid && si.product_id == l.product_id) with
  | some sale_item => rfl
  | none =>
    cases hp : db.products.find? (fun p => p.id == l.product_id) with
    | some producto => rfl
    | none => simp [hsi, hp] at h

/-- Claim C6: when a dispatch succeeds (and every line is resolvable, i.e.
has a matching SaleItem of that order or an existing catalog product), the
reported new total is Σ resolved_price × adjusted_quantity — resolved_price
being the matching SaleItem's frozen `price_at_time`, else the product's
current catalog `sale_price` — and that total is stored as the Sale's
`total_estimated`. -/
theorem c6_dispatch_total_resolved (pid : Nat) (items : List MovementCreate)
    (u : CurrentUser) (db db1 : DB) (t : ℚ)
    (hd : despachar_pedido pid items u db = .ok (db1, t))
    (hres : ∀ l ∈ items, (claimResolvedPrice db pid l.product_id).isSome = true) :
    t = (items.map
          (fun l => (claimResolvedPrice db pid l.product_id).getD 0 * l.quantity)).sum ∧
    saleTotal db1 pid = some t := by
  cases hsale : db.sales.find? (fun s => s.id == pid) with
  | none => simp [despachar_pedido, hsale] at hd
  | some s0 =>
    simp only [despachar_pedido, hsale] at hd
    cases hloop : despacharLoop pid
        (db.users.find? (fun x => x.username == u.username)) items db with
    | error e => rw [hloop] at hd; simp at hd
    | ok dbL =>
      rw [hloop] at hd
      simp only [Except.ok.injEq, Prod.mk.injEq] at hd
      have ht : t = nuevoTotal db pid items := hd.2.symm
      constructor
      · rw [ht]
        unfold nuevoTotal
        congr 1
        exact List.map_congr_left (fun l hl => resolvedLineTotal_eq_claim db pid l (hres l hl))
      · rw [← hd.1]
        have hsales := despacharLoop_ok_sales pid
          (db.users.find? (fun x => x.username == u.username)) items db dbL hloop
        rw [saleTotal_eq]
        dsimp only
        rw [find?_updateSaleFirst dbL.sales pid (fun p =>
          { p with total_estimated := nuevoTotal db pid items, status := false })
          (fun s => rfl), hsales, hsale]
        rw [ht]
        rfl

/-- Witness for C6 at a concrete input (the line resolves to the order's
    frozen price 3, quantity 3, total 9). -/
theorem c6_dispatch_total_resolved_witness :
    (9 : ℚ) = ([⟨1, 3, MovementType.EGRESO, none⟩].map
        (fun l : MovementCreate =>
          (claimResolvedPrice exDB 1 l.product_id).getD 0 * l.quantity)).sum ∧
    saleTotal (dispatchCommitted 1 [⟨1, 3, MovementType.EGRESO, none⟩] exAdmin exDB) 1
      = some 9 :=
  c6_dispatch_total_resolved 1 [⟨1, 3, MovementType.EGRESO, none⟩] exAdmin exDB
    (dispatchCommitted 1 [⟨1, 3, MovementType.EGRESO, none⟩] exAdmin exDB) 9
    (by with_unfolding_all rfl) (by with_unfolding_all decide)

/-- Claim C7 counterexample: the dispatch-path insufficient-stock failure is
identical for available stock 5 and available stock 2 (same request), so it
cannot name the available quantity; and the direct-EGRESO-path failure is
identical for product 1 and product 2 (same stock), so it cannot name the
offending product.  The claim that both paths name both is false. -/
theorem c7_counterexample :
    stockQty exDB 1 = some 5 ∧ stockQty exDB2 1 = some 2 ∧
    exceptErr (despachar_pedido 1 [⟨1, 7, MovementType.EGRESO, none⟩] exAdmin exDB)
      = exceptErr (despachar_pedido 1 [⟨1, 7, MovementType.EGRESO, none⟩] exAdmin exDB2) ∧
    (exceptErr (despachar_pedido 1 [⟨1, 7, MovementType.EGRESO, none⟩] exAdmin exDB)).isSome
      = true ∧
    exceptErr (registrar_movimiento ⟨1, 7, MovementType.EGRESO, none⟩ exAdmin exDB3)
      = exceptErr (registrar_movimiento ⟨2, 7, MovementType.EGRESO, none⟩ exAdmin exDB3) ∧
    (exceptErr (registrar_movimiento ⟨1, 7, MovementType.EGRESO, none⟩ exAdmin exDB3)).isSome
      = true := by
  with_unfolding_all decide

/-- Claim C7 (amended): an insufficient-stock failure on the direct EGRESO
path carries the available quantity (but not the product), while on the
dispatch path it carries the offending product id (but not the available
quantity). -/
theorem c7_insufficient_stock_details :
    (∀ (db : DB) (mov : MovementCreate) (u : CurrentUser) (s : StockRow),
        findStock db mov.product_id = some s →
        mov.type = MovementType.EGRESO →
        s.current_quantity < mov.quantity →
        registrar_movimiento mov u db
          = .error ⟨400, "Stock insuficiente. Disponible: "
              ++ toString s.current_quantity⟩) ∧
    (∀ (pid : Nat) (items : List MovementCreate) (u : CurrentUser) (db : DB)
        (e : HTTPError),
        despachar_pedido pid items u db = .error e → e.status_code = 400 →
        ∃ l ∈ items, e = ⟨400, dispatchStockMsg l.product_id⟩) := by
  constructor
  · intro db mov u s hs ht hlt
    unfold registrar_movimiento
    rw [hs, ht]
    simp [hlt]
  · intro pid items u db e hd h400
    cases hsale : db.sales.find? (fun s => s.id == pid) with
    | none =>
      simp [despachar_pedido, hsale] at hd
      rw [← hd] at h400
      simp at h400
    | some s0 =>
      simp only [despachar_pedido, hsale] at hd
      cases hloop : despacharLoop pid
          (db.users.find? (fun x => x.username == u.username)) items db with
      | ok dbL => rw [hloop] at hd; simp at hd
      | error e2 =>
        rw [hloop] at hd
        simp at hd
        rw [hd] at hloop
        exact despacharLoop_error_detail pid _ items db e hloop h400

/-- Witness for the amended C7 at concrete inputs. -/
theorem c7_insufficient_stock_details_witness :
    registrar_movimiento ⟨1, 7, MovementType.EGRESO, none⟩ exAdmin exDB
      = .error ⟨400, "Stock insuficiente. Disponible: " ++ toString (5 : ℚ)⟩ ∧
    ∃ l ∈ [(⟨1, 7, MovementType.EGRESO, none⟩ : MovementCreate)],
      (⟨400, dispatchStockMsg 1⟩ : HTTPError) = ⟨400, dispatchStockMsg l.product_id⟩ :=
  ⟨c7_insufficient_stock_details.1 exDB ⟨1, 7, MovementType.EGRESO, none⟩ exAdmin ⟨1, 5⟩
      (by with_unfolding_all decide) rfl (by with_unfolding_all decide),
    c7_insufficient_stock_details.2 1 [⟨1, 7, MovementType.EGRESO, none⟩] exAdmin exDB
      ⟨400, dispatchStockMsg 1⟩ (by with_unfolding_all rfl) rfl⟩

/-- Claim C8: a direct INGRESO by a non-admin caller fails with 403 and
leaves the state untouched; the same call by an admin succeeds and adds the
given quantity to the stock (no upper bound), recording one Movement row. -/
theorem c8_ingreso_solo_admin (db : DB) (mov : MovementCreate) (u : CurrentUser)
    (s : StockRow) (urow : UserRow)
    (hs : findStock db mov.product_id = some s)
    (ht : mov.type = MovementType.INGRESO)
    (hu : db.users.find? (fun x => x.username == u.username) = some urow) :
    (u.role ≠ "admin" →
      registrar_movimiento mov u db
        = .error ⟨403, "Solo el administrador puede registrar ingresos de mercancía"⟩ ∧
      movCommitted mov u db = db) ∧
    (u.role = "admin" →
      registrar_movimiento mov u db
        = .ok ({ db with
                  stocks := setStockQty db.stocks mov.product_id
                    (s.current_quantity + mov.quantity),
                  movements := db.movements ++
                    [⟨mov.product_id, urow.id, mov.quantity, mov.type, mov.observation⟩] },
               ⟨mov.product_id, urow.id, mov.quantity, mov.type, mov.observation⟩) ∧
      stockQty (movCommitted mov u db) mov.product_id
        = some (s.current_quantity + mov.quantity)) := by
  constructor
  · intro hrole
    have hcond : (mov.type == MovementType.INGRESO && u.role != "admin") = true := by
      simp [ht, hrole]
    constructor
    · unfold registrar_movimiento
      rw [hs]
      simp [hcond]
    · unfold movCommitted registrar_movimiento
      rw [hs]
      simp [hcond]
  · intro hrole
    have hcond : (mov.type == MovementType.INGRESO && u.role != "admin") = false := by
      simp [hrole]
    have hegr : (mov.type == MovementType.EGRESO) = false := by
      rw [ht]; rfl
    have hok : registrar_movimiento mov u db
        = .ok ({ db with
                  stocks := setStockQty db.stocks mov.product_id
                    (s.current_quantity + mov.quantity),
                  movements := db.movements ++
                    [⟨mov.product_id, urow.id, mov.quantity, mov.type, mov.observation⟩] },
               ⟨mov.product_id, urow.id, mov.quantity, mov.type, mov.observation⟩) := by
      unfold registrar_movimiento
      rw [hs]
      simp [hcond, hegr, hu]
    refine ⟨hok, ?_⟩
    unfold movCommitted
    rw [hok]
    rw [stockQty_eq]
    dsimp only
    rw [find?_setStockQty_self]
    rw [show db.stocks.find? (fun x => x.product_id == mov.product_id) = some s from hs]
    rfl

/-- Witness for C8 at concrete inputs: vendedor blocked, admin succeeds. -/
theorem c8_ingreso_solo_admin_witness :
    (registrar_movimiento ⟨1, 4, MovementType.INGRESO, none⟩ exVendedor exDB
      = .error ⟨403, "Solo el administrador puede registrar ingresos de mercancía"⟩) ∧
    movCommitted ⟨1, 4, MovementType.INGRESO, none⟩ exVendedor exDB = exDB ∧
    (registrar_movimiento ⟨1, 4, MovementType.INGRESO, none⟩ exAdmin exDB
      = .ok ({ exDB with
                stocks := setStockQty exDB.stocks 1 ((5 : ℚ) + 4),
                movements := exDB.movements ++
                  [⟨1, 7, 4, MovementType.INGRESO, none⟩] },
             ⟨1, 7, 4, MovementType.INGRESO, none⟩)) ∧
    stockQty (movCommitted ⟨1, 4, MovementType.INGRESO, none⟩ exAdmin exDB) 1
      = some ((5 : ℚ) + 4) := by
  have h1 := c8_ingreso_solo_admin exDB ⟨1, 4, MovementType.INGRESO, none⟩ exVendedor
    ⟨1, 5⟩ ⟨8, "bob", "vendedor"⟩ (by with_unfolding_all decide) rfl
    (by with_unfolding_all decide)
  have h2 := c8_ingreso_solo_admin exDB ⟨1, 4, MovementType.INGRESO, none⟩ exAdmin
    ⟨1, 5⟩ ⟨7, "ana", "admin"⟩ (by with_unfolding_all decide) rfl
    (by with_unfolding_all decide)
  have hv := h1.1 (by with_unfolding_all decide)
  have ha := h2.2 rfl
  exact ⟨hv.1, hv.2, ha.1, ha.2⟩

/-- Claim C9: `crear_pedido_cliente` rejects a missing/empty client name or
phone or an empty item list, leaving no row behind; otherwise it persists the
Sale header with `open = true` and exactly the caller-supplied
`total_estimated` (no recomputation), together with one SaleItem per input
item. -/
theorem c9_create_validation (ped : SaleCreate) (nid : Nat) (db : DB) :
    ((ped.client_name = "" ∨ ped.client_phone = "" ∨ ped.items = []) →
      exceptOk (crear_pedido_cliente ped nid db) = false ∧
      crearCommitted ped nid db = db) ∧
    (ped.client_name ≠ "" → ped.client_phone ≠ "" → ped.items ≠ [] →
      crear_pedido_cliente ped nid db
        = .ok ({ db with
                  sales := db.sales ++
                    [⟨nid, ped.client_name, ped.client_phone, ped.client_address,
                      ped.total_estimated, ped.observations, true⟩],
                  sale_items := db.sale_items ++ ped.items.map (crearSaleItem nid) },
               ⟨nid, ped.client_name, ped.client_phone, ped.client_address,
                 ped.total_estimated, ped.observations, true⟩)) := by
  constructor
  · intro hbad
    unfold exceptOk crearCommitted crear_pedido_cliente
    rcases hbad with h | h | h
    · simp [h]
    · simp [h]
    · cases hA : (ped.client_name == "" || ped.client_phone == "") with
      | true => simp [hA]
      | false => simp [hA, h]
  · intro h1 h2 h3
    have hname : (ped.client_name == "") = false := by simpa using h1
    have hphone : (ped.client_phone == "") = false := by simpa using h2
    have hlen : (ped.items.length == 0) = false := by
      simp [List.length_eq_zero]
      exact h3
    unfold crear_pedido_cliente
    simp [hname, hphone, hlen]

/-- The valid order payload used by the C9 witness. -/
def c9wPed : SaleCreate := ⟨"n", "p", "a", 99, none, [⟨1, some 2, "X", some "d", 2, 10⟩]⟩

/-- Witness for C9: an empty-name payload is rejected without touching the
    state; a valid payload is stored verbatim with `open = true`. -/
theorem c9_create_validation_witness :
    exceptOk (crear_pedido_cliente ⟨"", "p", "a", 0, none, []⟩ 5 exDB) = false ∧
    crearCommitted ⟨"", "p", "a", 0, none, []⟩ 5 exDB = exDB ∧
    crear_pedido_cliente c9wPed 5 exDB
      = .ok ({ exDB with
                sales := exDB.sales ++ [⟨5, "n", "p", "a", 99, none, true⟩],
                sale_items := exDB.sale_items
                  ++ ([⟨1, some 2, "X", some "d", 2, 10⟩] : List SaleItemSchema).map
                      (crearSaleItem 5) },
             ⟨5, "n", "p", "a", 99, none, true⟩) := by
  have hbad := (c9_create_validation ⟨"", "p", "a", 0, none, []⟩ 5 exDB).1 (Or.inl rfl)
  have hgood := (c9_create_validation c9wPed 5 exDB).2
    (by with_unfolding_all decide) (by with_unfolding_all decide)
    (by with_unfolding_all decide)
  exact ⟨hbad.1, hbad.2, hgood⟩

end TiendaSinu
